import Mathlib

/-
Verification of the file-backed data source descriptor
(`sdk/python/feast/infra/offline_stores/file_source.py`).

The Python classes `FileSource`, `FileOptions` and
`SavedDatasetFileStorage` are embedded shallowly: Python `Optional[str]`
becomes `Option String`, Python `None` becomes `none`, raised exceptions
become `Except PyErr`, and protobuf messages become plain structures.
Parts of the repository that `file_source.py` depends on but that are not
in the sources (the `DataSource` base class, `FileFormat`, the protobuf
classes) are modelled from the specification; each such definition says so
in its doc comment.
-/

namespace Feast

/-- Modelled from the spec: `file_format` is a "tagged variant identifying
the columnar encoding (e.g., a parquet variant)". The repository's
`feast.data_format` module (missing from the sources) declares the concrete
variants; only the parquet variant is exercised by `file_source.py`. -/
inductive FileFormat where
  | parquet
deriving DecidableEq

/-- Modelled from the spec: serializing a format variant into the wire
message's `file_format` enum (`FileFormat.to_proto` in the missing
`feast.data_format`). The wire-level format is represented by the variant
itself; an unset wire field is `none` at the use sites. -/
def FileFormat.to_proto (f : FileFormat) : FileFormat := f

/-- Modelled from the spec: `FileFormat.from_proto` of the missing
`feast.data_format` module; a wire message whose format oneof is unset
decodes to the absent format (`none`), a set oneof decodes to the matching
variant. -/
def FileFormat.from_proto (p : Option FileFormat) : Option FileFormat := p

/-- Python exceptions raised by the embedded code: `ValueError` for the
missing-path check in `FileSource.__init__` (the spec's
*ConfigurationError*) and `TypeError` for cross-variant comparison in
`FileSource.__eq__` (the spec's *TypeMismatchError*). -/
inductive PyErr where
  | valueError
  | typeError
deriving DecidableEq

/-- Modelled from the spec: the nested file-options wire message
(`DataSourceProto.FileOptions`), with fields `file_format` (enum, `none`
when unset), `file_url` and `s3_endpoint_override` (proto3 strings, the
empty string when unset; passing Python `None` for them at construction
leaves them unset). -/
structure FileOptionsProto where
  file_format : Option FileFormat
  file_url : String
  s3_endpoint_override : String
deriving DecidableEq

/-- Modelled from the spec: the descriptor wire message
(`DataSourceProto`): `name`, a type tag identifying a file-backed source,
`field_mapping` (key/value pairs), the nested file-options message, and the
three timestamp/partition column names as proto3 strings. -/
structure DataSourceProto where
  name : String
  type_tag : Nat
  field_mapping : List (String × String)
  file_options : FileOptionsProto
  event_timestamp_column : String
  created_timestamp_column : String
  date_partition_column : String
deriving DecidableEq

/-- The wire tag `DataSourceProto.BATCH_FILE` written by
`FileSource.to_proto`; its numeric value is irrelevant to the claims. -/
def batchFileTag : Nat := 1

/-- Python truthiness of an `Optional[str]` value: `None` and the empty
string are falsy, any other string is truthy. -/
def pyTruthy : Option String → Bool
  | none => false
  | some s => s != ""

/-- `FileOptions.__init__`: stores `file_format`, `file_url` and
`s3_endpoint_override` verbatim in the private attributes. -/
structure FileOptions where
  _file_format : Option FileFormat
  _file_url : Option String
  _s3_endpoint_override : Option String
deriving DecidableEq

/-- The `file_format` property getter: returns the stored value. -/
def FileOptions.file_format (fo : FileOptions) : Option FileFormat :=
  fo._file_format

/-- The `file_url` property getter: returns the stored value. -/
def FileOptions.file_url (fo : FileOptions) : Option String :=
  fo._file_url

/-- The `s3_endpoint_override` property getter:
`None if self._s3_endpoint_override == "" else self._s3_endpoint_override`.
Only a stored empty string compares equal to `""`; a stored `None` is
returned as is (which is also absent). -/
def FileOptions.s3_endpoint_override (fo : FileOptions) : Option String :=
  if fo._s3_endpoint_override = some "" then none else fo._s3_endpoint_override

/-- The `file_url` property setter. -/
def FileOptions.set_file_url (fo : FileOptions) (u : Option String) : FileOptions :=
  { fo with _file_url := u }

/-- The `s3_endpoint_override` property setter. -/
def FileOptions.set_s3_endpoint_override (fo : FileOptions) (v : Option String) : FileOptions :=
  { fo with _s3_endpoint_override := v }

/-- `FileOptions.to_proto`: writes `None if file_format is None else
file_format.to_proto()`, the `file_url` property and the (normalizing)
`s3_endpoint_override` property; Python `None` passed for a proto3 string
field leaves it unset, i.e. the empty string. -/
def FileOptions.to_proto (fo : FileOptions) : FileOptionsProto :=
  { file_format := Option.map FileFormat.to_proto fo.file_format
    file_url := fo.file_url.getD ""
    s3_endpoint_override := fo.s3_endpoint_override.getD "" }

/-- `FileOptions.from_proto`: builds a `FileOptions` from the wire message
via `FileFormat.from_proto` and the two string fields. -/
def FileOptions.from_proto (p : FileOptionsProto) : FileOptions :=
  { _file_format := FileFormat.from_proto p.file_format
    _file_url := some p.file_url
    _s3_endpoint_override := some p.s3_endpoint_override }

/-- The descriptor state: the fields stored by the shared base constructor
(`name`, the two timestamp columns, `field_mapping`, the partition column)
plus the nested `FileOptions` record created by `FileSource.__init__`.
`field_mapping` is a Python dict, embedded as its key/value pairs. -/
structure FileSource where
  name : String
  event_timestamp_column : String
  created_timestamp_column : String
  field_mapping : List (String × String)
  date_partition_column : String
  file_options : FileOptions
deriving DecidableEq

/-- `FileSource.__init__`: raises `ValueError` when `path is None`, builds
the nested `FileOptions` from `file_format`/`path`/`s3_endpoint_override`,
and delegates the remaining fields to the base constructor with
`name if name else path`. Modelled from the spec for the missing base
class: the optional column identifiers default to the empty string and the
field mapping to the empty mapping ("optional string column identifiers,
default empty"). -/
def FileSource.construct (path : Option String) (name : Option String)
    (event_timestamp_column : Option String) (file_format : Option FileFormat)
    (created_timestamp_column : Option String)
    (field_mapping : Option (List (String × String)))
    (date_partition_column : Option String)
    (s3_endpoint_override : Option String) : Except PyErr FileSource :=
  match path with
  | none => .error .valueError
  | some p =>
      .ok
        { name := if pyTruthy name then name.getD "" else p
          event_timestamp_column := event_timestamp_column.getD ""
          created_timestamp_column := created_timestamp_column.getD ""
          field_mapping := field_mapping.getD []
          date_partition_column := date_partition_column.getD ""
          file_options :=
            { _file_format := file_format
              _file_url := some p
              _s3_endpoint_override := s3_endpoint_override } }

/-- A call `FileSource(path=p)` that supplies only the path: all the other
parameters take their declared defaults (`name=""`,
`event_timestamp_column=""`, `file_format=None`,
`created_timestamp_column=""`, `field_mapping=None`,
`date_partition_column=""`, `s3_endpoint_override=None`). -/
def FileSource.constructDefault (path : Option String) : Except PyErr FileSource :=
  FileSource.construct path (some "") (some "") none (some "") none (some "") none

/-- The `path` property: returns the nested record's `file_url`. -/
def FileSource.path (fs : FileSource) : Option String :=
  fs.file_options.file_url

/-- Mutation of the nested location record through the descriptor:
`fs.file_options.file_url = u` (the `file_url` property setter of
`FileOptions`). -/
def FileSource.set_file_url (fs : FileSource) (u : Option String) : FileSource :=
  { fs with file_options := fs.file_options.set_file_url u }

/-- Equality of two Python dicts represented by their key/value pairs:
every pair of either dict is found in the other (keys are unique in a
dict, and dict order is irrelevant to `==`). -/
def dictEqB (l1 l2 : List (String × String)) : Bool :=
  l1.all (fun kv => decide (l2.lookup kv.1 = some kv.2)) &&
    l2.all (fun kv => decide (l1.lookup kv.1 = some kv.2))

/-- The body of `FileSource.__eq__` once `other` is known to be a
`FileSource`: conjunction of equality of `name`, `file_url`,
`file_format`, the two timestamp columns, `field_mapping` and the
normalized `s3_endpoint_override` property reads. -/
def FileSource.eqB (a b : FileSource) : Bool :=
  decide (a.name = b.name) &&
    decide (a.file_options.file_url = b.file_options.file_url) &&
    decide (a.file_options.file_format = b.file_options.file_format) &&
    decide (a.event_timestamp_column = b.event_timestamp_column) &&
    decide (a.created_timestamp_column = b.created_timestamp_column) &&
    dictEqB a.field_mapping b.field_mapping &&
    decide (a.file_options.s3_endpoint_override = b.file_options.s3_endpoint_override)

/-- A Python value appearing as the right operand of `==` on a
`FileSource`: either a `FileSource`, or some value of another type (a
string, `None`, ...). -/
inductive PyVal where
  | fileSource (fs : FileSource)
  | strVal (s : String)
  | noneVal

/-- `FileSource.__eq__`: raises `TypeError` unless `other` is a
`FileSource`, otherwise compares structurally. -/
def FileSource.eqPy (a : FileSource) (b : PyVal) : Except PyErr Bool :=
  match b with
  | .fileSource fs => .ok (FileSource.eqB a fs)
  | .strVal _ => .error .typeError
  | .noneVal => .error .typeError

/-- `FileSource.to_proto`: writes `name`, the `BATCH_FILE` tag,
`field_mapping`, the nested `FileOptions.to_proto` message, and the three
column names. -/
def FileSource.to_proto (fs : FileSource) : DataSourceProto :=
  { name := fs.name
    type_tag := batchFileTag
    field_mapping := fs.field_mapping
    file_options := fs.file_options.to_proto
    event_timestamp_column := fs.event_timestamp_column
    created_timestamp_column := fs.created_timestamp_column
    date_partition_column := fs.date_partition_column }

/-- `FileSource.from_proto`: reconstructs a descriptor from the wire
message through the constructor, decoding the format with
`FileFormat.from_proto` and reading the nested message's string fields
directly. -/
def FileSource.from_proto (p : DataSourceProto) : Except PyErr FileSource :=
  FileSource.construct (some p.file_options.file_url) (some p.name)
    (some p.event_timestamp_column)
    (FileFormat.from_proto p.file_options.file_format)
    (some p.created_timestamp_column) (some p.field_mapping)
    (some p.date_partition_column) (some p.file_options.s3_endpoint_override)

/-- The remote backend handle built by `create_filesystem_and_path`: an
`S3FileSystem` whose client configuration carries the endpoint URL when a
truthy override was given (`client_kwargs=dict(endpoint_url=...) if
s3_endpoint_override else None`). -/
structure S3FileSystem where
  client_endpoint : Option String
deriving DecidableEq

/-- Python `s.startswith(pre)`. -/
def pyStartsWith (s pre : String) : Bool :=
  pre.data.isPrefixOf s.data

/-- One pass of Python `str.replace`: scan left to right, replacing every
non-overlapping occurrence of the (non-empty) pattern. The fuel argument
is the length of the scanned list, which bounds the number of steps. -/
def pyReplaceAux (pat rep : List Char) : Nat → List Char → List Char
  | 0, s => s
  | _ + 1, [] => []
  | n + 1, c :: cs =>
      if pat.isPrefixOf (c :: cs) then
        rep ++ pyReplaceAux pat rep n ((c :: cs).drop pat.length)
      else
        c :: pyReplaceAux pat rep n cs

/-- Python `s.replace(pat, rep)` for a non-empty pattern: replaces every
occurrence of `pat` in `s`, not only a leading one. (The empty-pattern
case behaves differently in Python; the embedded code only ever uses the
pattern "s3://".) -/
def pyReplace (s pat rep : String) : String :=
  if pat = "" then s
  else ⟨pyReplaceAux pat.data rep.data s.data.length s.data⟩

/-- `FileSource.create_filesystem_and_path`: on an `s3://`-prefixed path,
builds an `S3FileSystem` (with the endpoint in its client configuration
only when the override is truthy) and returns it with
`path.replace("s3://", "")`; otherwise returns no filesystem and the path
unchanged. -/
def create_filesystem_and_path (path : String) (s3_endpoint_override : Option String) :
    Option S3FileSystem × String :=
  if pyStartsWith path "s3://" then
    (some { client_endpoint := if pyTruthy s3_endpoint_override then s3_endpoint_override else none },
      pyReplace path "s3://" "")
  else
    (none, path)

/-- `SavedDatasetFileStorage`: the sink descriptor holding a
`FileOptions` record. -/
structure SavedDatasetFileStorage where
  file_options : FileOptions
deriving DecidableEq

/-- `SavedDatasetFileStorage.__init__(path, file_format, s3_endpoint_override)`:
builds the nested `FileOptions` from the three arguments (`path` is a
plain string, `file_format` a concrete variant defaulting to parquet). -/
def SavedDatasetFileStorage.construct (path : String) (file_format : FileFormat)
    (s3_endpoint_override : Option String) : SavedDatasetFileStorage :=
  { file_options :=
      { _file_format := some file_format
        _file_url := some path
        _s3_endpoint_override := s3_endpoint_override } }

/-- `SavedDatasetFileStorage.to_data_source`: constructs a `FileSource`
from the sink's `file_url`, `file_format` and (normalized)
`s3_endpoint_override` property reads, leaving every other constructor
argument at its default. -/
def SavedDatasetFileStorage.to_data_source (s : SavedDatasetFileStorage) :
    Except PyErr FileSource :=
  FileSource.construct s.file_options.file_url (some "") (some "")
    s.file_options.file_format (some "") none (some "")
    s.file_options.s3_endpoint_override

/-- A concrete descriptor, used to instantiate hypothesis-bearing theorems
at a specific input. -/
def sampleSource : FileSource :=
  { name := "a.parquet"
    event_timestamp_column := ""
    created_timestamp_column := ""
    field_mapping := []
    date_partition_column := ""
    file_options :=
      { _file_format := none
        _file_url := some "a.parquet"
        _s3_endpoint_override := none } }

/-- Claim C2 as stated is false: constructing with the empty-string path
succeeds (the code only rejects `path is None`), yielding a descriptor
whose name is also empty. -/
theorem c2_counterexample :
    FileSource.constructDefault (some "") =
      Except.ok
        { name := ""
          event_timestamp_column := ""
          created_timestamp_column := ""
          field_mapping := []
          date_partition_column := ""
          file_options :=
            { _file_format := none
              _file_url := some ""
              _s3_endpoint_override := none } } := by
  rfl

/-- Claim C2 (amended): construction fails with the configuration error
exactly when the path argument is absent (`None`); any string path,
including the empty string, is accepted and construction succeeds. -/
theorem c2_path_check_amended (nm etc ctc dpc ov : Option String)
    (fmt : Option FileFormat) (fm : Option (List (String × String))) :
    FileSource.construct none nm etc fmt ctc fm dpc ov = Except.error PyErr.valueError ∧
    ∀ p : String, ∃ d, FileSource.construct (some p) nm etc fmt ctc fm dpc ov = Except.ok d := by
  exact ⟨rfl, fun p => ⟨_, rfl⟩⟩

/-- Claim C5: comparing a descriptor with any value that is not a
`FileSource` raises `TypeError` (the spec's *TypeMismatchError*); it never
silently returns false across variants. -/
theorem c5_cross_variant_eq_raises (d : FileSource) (x : PyVal)
    (hx : ∀ fs, x ≠ PyVal.fileSource fs) :
    FileSource.eqPy d x = Except.error PyErr.typeError := by
  cases x with
  | fileSource fs => exact absurd rfl (hx fs)
  | strVal s => rfl
  | noneVal => rfl

/-- Witness for C5 at a concrete descriptor compared against `None`. -/
theorem c5_witness :
    FileSource.eqPy sampleSource PyVal.noneVal = Except.error PyErr.typeError :=
  c5_cross_variant_eq_raises sampleSource PyVal.noneVal (fun fs h => PyVal.noConfusion h)

/-- Claim C6: constructing from a non-empty path with no name supplied
(all other arguments at their defaults) yields a descriptor whose name is
the path. -/
theorem c6_default_name_is_path (p : String) (hp : p ≠ "") :
    ∃ d, FileSource.constructDefault (some p) = Except.ok d ∧ d.name = p := by
  refine ⟨_, rfl, ?_⟩
  simp [FileSource.constructDefault, FileSource.construct, pyTruthy]

/-- Witness for C6 at the path "a.parquet". -/
theorem c6_witness :
    ∃ d, FileSource.constructDefault (some "a.parquet") = Except.ok d ∧
      d.name = "a.parquet" :=
  c6_default_name_is_path "a.parquet" (by decide)

/-- Claim C10: constructing from a non-empty path with an explicitly
supplied empty-string name (and any other arguments) yields a descriptor
whose name is the path: the empty-string name is falsy in
`name if name else path`, so it is treated like an absent name rather than
preserved. -/
theorem c10_empty_name_is_path (p : String) (hp : p ≠ "")
    (etc : Option String) (fmt : Option FileFormat) (ctc : Option String)
    (fm : Option (List (String × String))) (dpc ov : Option String) :
    ∃ d, FileSource.construct (some p) (some "") etc fmt ctc fm dpc ov = Except.ok d ∧
      d.name = p := by
  refine ⟨_, rfl, ?_⟩
  simp [FileSource.construct, pyTruthy]

/-- Witness for C10 at the path "b.parquet". -/
theorem c10_witness :
    ∃ d, FileSource.construct (some "b.parquet") (some "") (some "") none (some "")
        none (some "") none = Except.ok d ∧ d.name = "b.parquet" :=
  c10_empty_name_is_path "b.parquet" (by decide) (some "") none (some "") none (some "") none

/-- Claim C7: writing the empty string through the `s3_endpoint_override`
setter and reading the property back yields the absent value, and a stored
absent value also reads back as absent. -/
theorem c7_empty_endpoint_reads_absent (fo : FileOptions) :
    (fo.set_s3_endpoint_override (some "")).s3_endpoint_override = none ∧
    (fo.set_s3_endpoint_override none).s3_endpoint_override = none := by
  exact ⟨rfl, rfl⟩

/-- Claim C3: two descriptors compare equal exactly when name, path,
file format, the two timestamp columns, the field mapping and the
(normalized) endpoint override all agree; and the comparison is
insensitive to `date_partition_column`. -/
theorem c3_structural_equality (d1 d2 : FileSource) :
    (FileSource.eqB d1 d2 = true ↔
      (d1.name = d2.name ∧ d1.path = d2.path ∧
        d1.file_options.file_format = d2.file_options.file_format ∧
        d1.event_timestamp_column = d2.event_timestamp_column ∧
        d1.created_timestamp_column = d2.created_timestamp_column ∧
        dictEqB d1.field_mapping d2.field_mapping = true ∧
        d1.file_options.s3_endpoint_override = d2.file_options.s3_endpoint_override)) ∧
    ∀ x y : String,
      FileSource.eqB { d1 with date_partition_column := x }
          { d2 with date_partition_column := y } =
        FileSource.eqB d1 d2 := by
  constructor
  · simp [FileSource.eqB, FileSource.path, and_assoc]
  · intro x y
    rfl

/-- Claim C4 as stated is false: on the path "s3://as3://b" the code
returns the canonical path "ab" (it removes every occurrence of "s3://",
via `path.replace`), not "as3://b" (the path with only the leading scheme
prefix stripped). -/
theorem c4_counterexample :
    (create_filesystem_and_path "s3://as3://b" none).2 = "ab" ∧
    (create_filesystem_and_path "s3://as3://b" none).2 ≠ "as3://b" := by
  constructor
  · rfl
  · decide

/-- Claim C4 (amended): for an `s3://`-prefixed path the resolver returns
a non-absent backend handle, carrying the custom endpoint exactly when a
truthy (non-empty, non-absent) override is given, together with the path
with every occurrence of "s3://" removed (which equals stripping the
leading prefix whenever "s3://" occurs only there); otherwise it returns
an absent handle and the path unchanged. -/
theorem c4_resolve_amended (path : String) (ov : Option String) :
    ((create_filesystem_and_path path ov).1 =
        if pyStartsWith path "s3://" then
          some { client_endpoint := if pyTruthy ov then ov else none }
        else none) ∧
    ((create_filesystem_and_path path ov).2 =
        if pyStartsWith path "s3://" then pyReplace path "s3://" "" else path) := by
  by_cases h : pyStartsWith path "s3://" <;>
    simp [create_filesystem_and_path, h]

/-- Claim C8: converting a saved-dataset file sink into a data source
yields a descriptor with the sink's path, file format, and (normalized)
endpoint override; in particular the path "out.parquet" survives the
conversion. -/
theorem c8_to_data_source_preserves (p : String) (fmt : FileFormat) (ov : Option String) :
    ∃ d, (SavedDatasetFileStorage.construct p fmt ov).to_data_source = Except.ok d ∧
      d.path = some p ∧
      d.file_options.file_format = some fmt ∧
      d.file_options.s3_endpoint_override =
        (SavedDatasetFileStorage.construct p fmt ov).file_options.s3_endpoint_override := by
  refine ⟨_, rfl, rfl, rfl, ?_⟩
  by_cases h : ov = some "" <;>
    simp [SavedDatasetFileStorage.construct, FileOptions.s3_endpoint_override, h]

/-- Claim C9: a descriptor constructed without a name from a non-empty
path keeps that path as its name after the nested location record's
`file_url` is mutated to a different value; the name is not recomputed
from the mutated path. -/
theorem c9_name_fixed_after_mutation (p : String) (u : Option String) (d : FileSource)
    (hp : p ≠ "") (hu : u ≠ some p)
    (hd : FileSource.constructDefault (some p) = Except.ok d) :
    (d.set_file_url u).name = p := by
  simp only [FileSource.constructDefault, FileSource.construct, Except.ok.injEq] at hd
  subst hd
  simp [FileSource.set_file_url, FileOptions.set_file_url, pyTruthy]

/-- Witness for C9: the name "a.parquet" survives re-pointing the
location record at "b.parquet". -/
theorem c9_witness :
    (FileSource.set_file_url sampleSource (some "b.parquet")).name = "a.parquet" := by
  have h := c9_name_fixed_after_mutation "a.parquet" (some "b.parquet") sampleSource
    (by decide) (by decide) rfl
  exact h

/-- In a list of key/value pairs with pairwise-distinct keys (a Python
dict), looking up the key of any member pair finds that pair's value. -/
theorem lookup_self_of_nodup_keys {l : List (String × String)}
    (h : l.Pairwise fun a b => a.1 ≠ b.1) :
    ∀ kv ∈ l, l.lookup kv.1 = some kv.2 := by
  induction l with
  | nil => intro kv hkv; cases hkv
  | cons hd tl ih =>
    obtain ⟨k, v⟩ := hd
    rcases List.pairwise_cons.mp h with ⟨hhd, htl⟩
    intro kv hkv
    rcases List.mem_cons.mp hkv with rfl | hkv
    · simp [List.lookup]
    · have hne : (kv.1 == k) = false :=
        beq_eq_false_iff_ne.mpr fun he => hhd kv hkv he.symm
      simp only [List.lookup, hne]
      exact ih htl kv hkv

/-- Python dict equality is reflexive on a mapping with unique keys. -/
theorem dictEqB_refl {l : List (String × String)}
    (h : l.Pairwise fun a b => a.1 ≠ b.1) : dictEqB l l = true := by
  simp only [dictEqB, Bool.and_self, List.all_eq_true, decide_eq_true_eq]
  intro kv hkv
  exact lookup_self_of_nodup_keys h kv hkv

/-- Claim C1: encoding a descriptor whose file format is a concrete
variant and decoding the resulting wire message yields a descriptor equal
to the original under the structural equality of `FileSource.__eq__`.
The descriptor is quantified over all constructor inputs with a present
path and a concrete format; the field mapping has unique keys, as any
Python dict does. -/
theorem c1_encode_decode_round_trip (p : String) (nm etc ctc dpc ov : Option String)
    (fmt : FileFormat) (fm : Option (List (String × String))) (d : FileSource)
    (hfm : (fm.getD []).Pairwise fun a b => a.1 ≠ b.1)
    (hd : FileSource.construct (some p) nm etc (some fmt) ctc fm dpc ov = Except.ok d) :
    ∃ d2, FileSource.from_proto d.to_proto = Except.ok d2 ∧ FileSource.eqB d d2 = true := by
  simp only [FileSource.construct, Except.ok.injEq] at hd
  subst hd
  refine ⟨_, rfl, ?_⟩
  simp only [FileSource.eqB, FileSource.from_proto, FileSource.to_proto,
    FileOptions.to_proto, FileFormat.to_proto, FileFormat.from_proto,
    FileSource.construct, FileOptions.file_url, FileOptions.file_format,
    Option.map_some', Option.getD_some, Bool.and_eq_true, decide_eq_true_eq, and_assoc]
  refine ⟨?_, ?_, ?_, ?_, ?_, ?_, ?_⟩
  · rcases nm with _ | s
    · simp [pyTruthy]
    · by_cases hs : s = ""
      · simp [pyTruthy, hs]
      · simp [pyTruthy, hs]
  · trivial
  · trivial
  · trivial
  · trivial
  · exact dictEqB_refl hfm
  · rcases ov with _ | s
    · simp [FileOptions.s3_endpoint_override]
    · by_cases hs : s = ""
      · simp [FileOptions.s3_endpoint_override, hs]
      · simp [FileOptions.s3_endpoint_override, hs]

/-- A concrete descriptor with a parquet format, a non-trivial field
mapping and an empty-string endpoint override, for instantiating the
round-trip theorem. -/
def roundTripSample : FileSource :=
  { name := "x.parquet"
    event_timestamp_column := "e"
    created_timestamp_column := ""
    field_mapping := [("a", "b")]
    date_partition_column := "d"
    file_options :=
      { _file_format := some .parquet
        _file_url := some "x.parquet"
        _s3_endpoint_override := some "" } }

/-- Witness for C1 at a concrete parquet descriptor. -/
theorem c1_witness :
    ∃ d2, FileSource.from_proto roundTripSample.to_proto = Except.ok d2 ∧
      FileSource.eqB roundTripSample d2 = true :=
  c1_encode_decode_round_trip "x.parquet" (some "") (some "e") (some "") (some "d")
    (some "") FileFormat.parquet (some [("a", "b")]) roundTripSample (by simp) rfl

end Feast
